import Mathlib

/-!
Shallow embedding of the caching/retry orchestration core of the blog-post
generator (`src/bloger_workflow.py`, class `BlogPostGenerator`).

The three agents (searcher, article_scraper, writer) are external
collaborators; an `Env` supplies their outcomes.  The mutable
`session_state` dictionary is embedded as an explicit `SessionState` record
threaded through each operation, and every collaborator invocation is
recorded in a trace of `CallEvent`s.  Python dictionaries are embedded as
insertion-ordered association lists (`assocInsert` replaces in place or
appends, exactly as `d[k] = v`; `assocLookup` is `d.get(k)`).

`src/models.py` is imported by the workflow but absent from the sources, so
the entity types below are modelled from the spec (section 3).
-/

namespace Blogger

/-- Modelled from the spec: `src/models.py` is missing from the sources.
Section 3 gives a SourceCandidate as `{ url, title, summary }`, all strings. -/
structure SourceCandidate where
  url : String
  title : String
  summary : String
deriving DecidableEq, Repr

/-- Modelled from the spec: `src/models.py` is missing from the sources.
A SearchResultSet is an ordered sequence of SourceCandidate; the field is
named `articles` as in every use site of `bloger_workflow.py`
(`search_results.articles`). -/
structure SearchResults where
  articles : List SourceCandidate
deriving DecidableEq, Repr

/-- Modelled from the spec: `src/models.py` is missing from the sources.
Section 3 gives a ScrapedArticle as `{ url (unique key), title, content }`. -/
structure ScrapedArticle where
  url : String
  title : String
  content : String
deriving DecidableEq, Repr

/-- `d.get(key)` on a Python dict embedded as an insertion-ordered
association list. -/
def assocLookup {α : Type} : List (String × α) → String → Option α
  | [], _ => none
  | (k, v) :: rest, key => if k = key then some v else assocLookup rest key

/-- `d[key] = v` on a Python dict: replace in place when the key is present,
append otherwise (Python dicts preserve insertion order and keep the
position of an updated key). -/
def assocInsert {α : Type} : List (String × α) → String → α → List (String × α)
  | [], key, v => [(key, v)]
  | (k, w) :: rest, key, v =>
    if k = key then (key, v) :: rest else (k, w) :: assocInsert rest key v

/-- `d.values()` in insertion order. -/
def assocValues {α : Type} (d : List (String × α)) : List α := d.map Prod.snd

/-- `Dict[str, ScrapedArticle]` of `scrape_articles`. -/
abbrev ScrapedDict := List (String × ScrapedArticle)

/-- The `self.session_state` dictionary of the workflow: the three cache
partitions written by `add_blog_post_to_cache`, `add_search_results_to_cache`
and `add_scraped_articles_to_cache`, each a topic-keyed dict.  A top-level
key that was never `setdefault`-ed is the empty dict, so empty lists model
the initial state faithfully. -/
structure SessionState where
  blog_posts : List (String × String)
  search_results : List (String × SearchResults)
  scraped_articles : List (String × ScrapedDict)
deriving DecidableEq, Repr

/-- Outcome of one `self.searcher.run(topic)` call: an exception
(`raise`), a response whose content is `None` or not a `SearchResults`
(`invalid`, the failed `isinstance` branch of lines 197-217), or a
well-typed `SearchResults` content. -/
inductive SearchOutcome where
  | raise
  | invalid
  | ok (results : SearchResults)
deriving DecidableEq, Repr

/-- Outcome of one `self.article_scraper.run(url)` call: an exception,
a response whose content is `None` or not a `ScrapedArticle` (the failed
`isinstance` check of lines 261-268), or a well-typed `ScrapedArticle`. -/
inductive ScrapeOutcome where
  | raise
  | invalid
  | ok (article : ScrapedArticle)
deriving DecidableEq, Repr

/-- Outcome of the `self.writer.run(...)` stream: an exception, or the
final accumulated text (`self.writer.run_response.content`). -/
inductive WriteOutcome where
  | raise
  | ok (text : String)
deriving DecidableEq, Repr

/-- The three external collaborators.  The searcher is indexed by the retry
attempt number; the scraper is a function of the url it is given; the
writer receives the topic and the scraped articles in dict-value order
(the `writer_input` of lines 104-107, keys dropped). -/
structure Env where
  searcher : Nat → SearchOutcome
  scraper : String → ScrapeOutcome
  writer : String → List ScrapedArticle → WriteOutcome

/-- One recorded collaborator invocation. -/
inductive CallEvent where
  | search (attempt : Nat)
  | scrape (url : String)
  | write
deriving DecidableEq, Repr

/-- `get_cached_blog_post` (lines 118-121):
`self.session_state.get("blog_posts", {}).get(topic)`. -/
def get_cached_blog_post (st : SessionState) (topic : String) : Option String :=
  assocLookup st.blog_posts topic

/-- `add_blog_post_to_cache` (lines 123-126). -/
def add_blog_post_to_cache (st : SessionState) (topic : String)
    (blog_post : String) : SessionState :=
  { st with blog_posts := assocInsert st.blog_posts topic blog_post }

/-- `get_cached_search_results` (lines 128-137).  The stored value is the
`SearchResults` instance placed there by `add_search_results_to_cache`, so
the `isinstance(search_results, dict)` guard is false and the value is
returned unchanged; the `model_validate` branch only fires for raw-dict
payloads, which the in-process typed state never holds. -/
def get_cached_search_results (st : SessionState) (topic : String) :
    Option SearchResults :=
  assocLookup st.search_results topic

/-- `add_search_results_to_cache` (lines 139-144). -/
def add_search_results_to_cache (st : SessionState) (topic : String)
    (results : SearchResults) : SessionState :=
  { st with search_results := assocInsert st.search_results topic results }

/-- `get_cached_scraped_articles` (lines 146-157).  The stored value is a
`Dict[str, ScrapedArticle]`, which IS a `dict`, so for a non-empty cached
value the code runs `ScrapedArticle.model_validate(scraped_articles)` on
the whole url-keyed mapping: its keys are urls rather than the model's
field names and its values are `ScrapedArticle` objects rather than
strings, so pydantic validation always raises, embedded as
`Except.error ()`.  An empty cached dict is falsy, skips validation, and is
returned as is; an absent key yields `None`. -/
def get_cached_scraped_articles (st : SessionState) (topic : String) :
    Except Unit (Option ScrapedDict) :=
  match assocLookup st.scraped_articles topic with
  | none => Except.ok none
  | some d => if d.isEmpty then Except.ok (some d) else Except.error ()

/-- `add_scraped_articles_to_cache` (lines 159-166). -/
def add_scraped_articles_to_cache (st : SessionState) (topic : String)
    (scraped : ScrapedDict) : SessionState :=
  { st with scraped_articles := assocInsert st.scraped_articles topic scraped }

/-- The retry loop of `get_search_results` (lines 194-226), over the list
of attempt numbers `range(num_attempts)`.  A `raise` is caught by the
`except` clause and an `invalid` response falls into the `else` branch;
both just log and continue.  The first well-typed response is cached under
(topic, "search") and returned; exhaustion returns `None` with no cache
write. -/
def searchAttempts (env : Env) (st : SessionState) (topic : String) :
    List Nat → Option SearchResults × SessionState × List CallEvent
  | [] => (none, st, [])
  | a :: rest =>
    match env.searcher a with
    | SearchOutcome.ok r =>
        (some r, add_search_results_to_cache st topic r, [CallEvent.search a])
    | SearchOutcome.raise =>
        let next := searchAttempts env st topic rest
        (next.1, next.2.1, CallEvent.search a :: next.2.2)
    | SearchOutcome.invalid =>
        let next := searchAttempts env st topic rest
        (next.1, next.2.1, CallEvent.search a :: next.2.2)

/-- `get_search_results` (lines 168-226).  With the cache enabled, a cached
`SearchResults` instance is revalidated by `SearchResults.model_validate`,
which succeeds on an instance of the model and returns an equal value, so a
hit is returned directly with no collaborator call; otherwise the retry
loop runs over `range(num_attempts)` (`num_attempts` defaults to 3). -/
def get_search_results (env : Env) (st : SessionState) (topic : String)
    (use_search_cache : Bool) (numAttempts : Nat) :
    Option SearchResults × SessionState × List CallEvent :=
  if use_search_cache then
    match get_cached_search_results st topic with
    | some r => (some r, st, [])
    | none => searchAttempts env st topic (List.range numAttempts)
  else searchAttempts env st topic (List.range numAttempts)

/-- The per-candidate loop of `scrape_articles` (lines 252-274).  A
candidate whose url is already a key of the in-progress dict is skipped.
Otherwise the scraper is invoked: a well-typed response `a` is stored under
`a.url` (the url reported in the response, not the candidate url); a
response of the wrong shape adds nothing; an exception is NOT caught
anywhere in `scrape_articles`, so it propagates (`Except.error`),
abandoning the loop after the raising call. -/
def scrapeLoop (env : Env) :
    List SourceCandidate → ScrapedDict → Except Unit ScrapedDict × List CallEvent
  | [], acc => (Except.ok acc, [])
  | c :: rest, acc =>
    if (assocLookup acc c.url).isSome then
      scrapeLoop env rest acc
    else
      match env.scraper c.url with
      | ScrapeOutcome.raise => (Except.error (), [CallEvent.scrape c.url])
      | ScrapeOutcome.invalid =>
          let next := scrapeLoop env rest acc
          (next.1, CallEvent.scrape c.url :: next.2)
      | ScrapeOutcome.ok a =>
          let next := scrapeLoop env rest (assocInsert acc a.url a)
          (next.1, CallEvent.scrape c.url :: next.2)

/-- Result of `scrape_articles`: the returned dict (or the propagated
exception), the session state after the call, and the scraper calls made. -/
structure ScrapeResult where
  result : Except Unit ScrapedDict
  state : SessionState
  trace : List CallEvent
deriving Repr

/-- The no-usable-cache path of `scrape_articles`: run the loop starting
from the empty dict (line 231), then persist the accumulated set under
(topic, "scrape") (line 277) and return it.  An exception escaping the loop
skips the cache write (the `raise` aborts the function). -/
def scrapeFresh (env : Env) (st : SessionState) (topic : String)
    (articles : List SourceCandidate) : ScrapeResult :=
  match scrapeLoop env articles [] with
  | (Except.ok d, tr) =>
      { result := Except.ok d
        state := add_scraped_articles_to_cache st topic d
        trace := tr }
  | (Except.error e, tr) => { result := Except.error e, state := st, trace := tr }

/-- `scrape_articles` (lines 228-278).  With the cache enabled, the cache
read is attempted inside `try`: a returned value that `is not None` is
returned immediately (line 246) with no scraper call and no cache write —
this includes the empty dict; a raised `ValidationError` (every non-empty
cached dict, see `get_cached_scraped_articles`) is caught at line 247 and
the function falls through to fresh scraping, as it does on a `None`
read or with the cache disabled. -/
def scrape_articles (env : Env) (st : SessionState) (topic : String)
    (results : SearchResults) (use_scrape_cache : Bool) : ScrapeResult :=
  if use_scrape_cache then
    match get_cached_scraped_articles st topic with
    | Except.ok (some d) => { result := Except.ok d, state := st, trace := [] }
    | Except.ok none => scrapeFresh env st topic results.articles
    | Except.error _ => scrapeFresh env st topic results.articles
  else scrapeFresh env st topic results.articles

/-- Result of one `run`: the final yielded content (or a propagated
exception), the final session state, and all collaborator calls made. -/
structure RunResult where
  output : Except Unit String
  state : SessionState
  trace : List CallEvent
deriving Repr

/-- The fixed not-found message of lines 90-95. -/
def notFoundMessage (topic : String) : String :=
  "Sorry, could not find any articles on the topic: " ++ topic

/-- `run` after the cached-report check (lines 84-116): search (3 attempts),
terminate with the not-found message on a `None` or empty result, otherwise
scrape, feed the dict values to the writer, and on writer success cache the
final text under (topic, "post") unconditionally.  A writer exception
propagates after the write call was made; a scraper exception propagates
before the writer is invoked. -/
def runAfterPostCache (env : Env) (st : SessionState) (topic : String)
    (use_search_cache use_scrape_cache : Bool) : RunResult :=
  let s := get_search_results env st topic use_search_cache 3
  match s.1 with
  | none =>
      { output := Except.ok (notFoundMessage topic), state := s.2.1, trace := s.2.2 }
  | some r =>
    if r.articles.isEmpty then
      { output := Except.ok (notFoundMessage topic), state := s.2.1, trace := s.2.2 }
    else
      let sc := scrape_articles env s.2.1 topic r use_scrape_cache
      match sc.result with
      | Except.error e =>
          { output := Except.error e, state := sc.state, trace := s.2.2 ++ sc.trace }
      | Except.ok d =>
        match env.writer topic (assocValues d) with
        | WriteOutcome.raise =>
            { output := Except.error ()
              state := sc.state
              trace := s.2.2 ++ sc.trace ++ [CallEvent.write] }
        | WriteOutcome.ok w =>
            { output := Except.ok w
              state := add_blog_post_to_cache sc.state topic w
              trace := s.2.2 ++ sc.trace ++ [CallEvent.write] }

/-- `run` (lines 65-116).  With `use_cached_report`, a cached post is
returned directly — but the check is `if cached_blog_post:`, Python
truthiness, so a cached empty string does NOT short-circuit and the
workflow proceeds as on a miss. -/
def run (env : Env) (st : SessionState) (topic : String)
    (use_search_cache use_scrape_cache use_cached_report : Bool) : RunResult :=
  if use_cached_report then
    match get_cached_blog_post st topic with
    | some p =>
        if p = "" then runAfterPostCache env st topic use_search_cache use_scrape_cache
        else { output := Except.ok p, state := st, trace := [] }
    | none => runAfterPostCache env st topic use_search_cache use_scrape_cache
  else runAfterPostCache env st topic use_search_cache use_scrape_cache

/-- Whether a search outcome is a well-typed response. -/
def SearchOutcome.isOk : SearchOutcome → Bool
  | SearchOutcome.ok _ => true
  | _ => false

/-- How many times the scrape collaborator was invoked for url `u` in a
trace. -/
def countScrape (u : String) : List CallEvent → Nat
  | [] => 0
  | CallEvent.scrape v :: rest => (if v = u then 1 else 0) + countScrape u rest
  | _ :: rest => countScrape u rest

/-! ### Concrete inputs used to exercise the embedding -/

/-- A fresh session state: no cache partition populated. -/
def stEmpty : SessionState := ⟨[], [], []⟩

/-- A candidate with the given url. -/
def mkCand (u : String) : SourceCandidate := ⟨u, "title", "summary"⟩

/-- A scraped article whose reported url is the given one. -/
def mkArt (u : String) : ScrapedArticle := ⟨u, "title", "content"⟩

/-- A scraper that succeeds on every url and reports the requested url. -/
def okScraper : String → ScrapeOutcome := fun u => ScrapeOutcome.ok (mkArt u)

/-- Every collaborator succeeds; the search finds one candidate. -/
def envAllOk : Env :=
  ⟨fun _ => SearchOutcome.ok ⟨[mkCand "u1"]⟩, okScraper,
   fun _ _ => WriteOutcome.ok "final post"⟩

/-- Every collaborator raises. -/
def envFail : Env :=
  ⟨fun _ => SearchOutcome.raise, fun _ => ScrapeOutcome.raise,
   fun _ _ => WriteOutcome.raise⟩

/-- The search succeeds with zero candidates. -/
def envEmptySearch : Env :=
  ⟨fun _ => SearchOutcome.ok ⟨[]⟩, okScraper, fun _ _ => WriteOutcome.ok "w"⟩

/-- The scraper raises on every url. -/
def envScrapeRaise : Env :=
  ⟨fun _ => SearchOutcome.invalid, fun _ => ScrapeOutcome.raise,
   fun _ _ => WriteOutcome.ok "w"⟩

/-- The scraper returns a mistyped response on every url. -/
def envScrapeInvalid : Env :=
  ⟨fun _ => SearchOutcome.invalid, fun _ => ScrapeOutcome.invalid,
   fun _ _ => WriteOutcome.ok "w"⟩

/-- The first search attempt raises, later attempts succeed with zero
candidates. -/
def envSecondTry : Env :=
  ⟨fun n => if n = 0 then SearchOutcome.raise else SearchOutcome.ok ⟨[]⟩,
   okScraper, fun _ _ => WriteOutcome.ok "w"⟩

/-- A session state whose post cache holds `p` for topic "t". -/
def stCachedPost (p : String) : SessionState := ⟨[("t", p)], [], []⟩

/-- A session state whose scraped-article cache holds a one-entry set for
topic "t". -/
def stCachedScrape : SessionState := ⟨[], [], [("t", [("u1", mkArt "u1")])]⟩

/-- Two candidates with distinct urls. -/
def twoCands : SearchResults := ⟨[mkCand "u1", mkCand "u2"]⟩

/-- Two candidates sharing one url. -/
def dupCands : SearchResults := ⟨[mkCand "u", mkCand "u"]⟩

/-- A single candidate. -/
def oneCand : SearchResults := ⟨[mkCand "u1"]⟩

/-! ### Association-list lemmas -/

/-- Looking up after an insert: the inserted key sees the new value, other
keys are unaffected. -/
theorem assocLookup_insert {α : Type} (d : List (String × α)) (k key : String)
    (v : α) :
    assocLookup (assocInsert d k v) key =
      if k = key then some v else assocLookup d key := by
  induction d with
  | nil => simp [assocInsert, assocLookup]
  | cons hd tl ih =>
    obtain ⟨k', w⟩ := hd
    by_cases h1 : k' = k
    · subst h1
      by_cases h2 : k' = key <;> simp [assocInsert, assocLookup, h2]
    · by_cases h2 : k' = key
      · subst h2
        have hk : k ≠ k' := fun h => h1 h.symm
        simp [assocInsert, assocLookup, h1, hk]
      · simp [assocInsert, assocLookup, h1, h2, ih]

/-- Every entry of an inserted dict is the inserted pair or an original
entry. -/
theorem assocInsert_mem {α : Type} (d : List (String × α)) (k : String)
    (v : α) (p : String × α) (hp : p ∈ assocInsert d k v) :
    p = (k, v) ∨ p ∈ d := by
  induction d with
  | nil => simpa [assocInsert] using hp
  | cons hd tl ih =>
    obtain ⟨k', w⟩ := hd
    by_cases h1 : k' = k
    · subst h1
      simp [assocInsert] at hp
      rcases hp with h | h
      · exact Or.inl (by simp [h])
      · exact Or.inr (by simp [h])
    · simp [assocInsert, h1] at hp
      rcases hp with h | h
      · exact Or.inr (by simp [h])
      · rcases ih h with h' | h'
        · exact Or.inl h'
        · exact Or.inr (by simp [h'])

/-! ### Search-stage lemmas -/

/-- The retry loop never touches the post or scraped-article cache
partitions. -/
theorem searchAttempts_other_fields (env : Env) (st : SessionState)
    (topic : String) (l : List Nat) :
    (searchAttempts env st topic l).2.1.blog_posts = st.blog_posts ∧
    (searchAttempts env st topic l).2.1.scraped_articles = st.scraped_articles := by
  induction l with
  | nil => exact ⟨rfl, rfl⟩
  | cons a rest ih =>
    cases h : env.searcher a <;>
      simp [searchAttempts, h, add_search_results_to_cache, ih]

/-- If the retry loop exhausts all attempts without a well-typed response,
the session state is returned unchanged: failure is never cached. -/
theorem searchAttempts_none_state (env : Env) (st : SessionState)
    (topic : String) (l : List Nat)
    (h : (searchAttempts env st topic l).1 = none) :
    (searchAttempts env st topic l).2.1 = st := by
  induction l with
  | nil => rfl
  | cons a rest ih =>
    cases ha : env.searcher a
    · simp [searchAttempts, ha] at h ⊢
      exact ih h
    · simp [searchAttempts, ha] at h ⊢
      exact ih h
    · simp [searchAttempts, ha] at h

/-- The retry loop records only search events. -/
theorem searchAttempts_trace_search (env : Env) (st : SessionState)
    (topic : String) (l : List Nat) :
    ∀ e ∈ (searchAttempts env st topic l).2.2, ∃ n, e = CallEvent.search n := by
  induction l with
  | nil => intro e he; simp [searchAttempts] at he
  | cons a rest ih =>
    intro e he
    cases ha : env.searcher a <;> simp [searchAttempts, ha] at he
    · rcases he with h | h
      · exact ⟨a, h⟩
      · exact ih e h
    · rcases he with h | h
      · exact ⟨a, h⟩
      · exact ih e h
    · exact ⟨a, he⟩

/-- The retry loop makes at most one collaborator call per attempt
number. -/
theorem searchAttempts_trace_length (env : Env) (st : SessionState)
    (topic : String) (l : List Nat) :
    (searchAttempts env st topic l).2.2.length ≤ l.length := by
  induction l with
  | nil => simp [searchAttempts]
  | cons a rest ih =>
    cases ha : env.searcher a <;> simp [searchAttempts, ha]
    · exact ih
    · exact ih

/-- First-success-wins shape of the retry loop: failures on every attempt
in `l1` followed by a success at attempt `k` yield the success, cache it,
and stop — later attempt numbers `l2` are never tried. -/
theorem searchAttempts_first_success (env : Env) (st : SessionState)
    (topic : String) (l1 : List Nat) (k : Nat) (l2 : List Nat)
    (r : SearchResults)
    (hfail : ∀ i ∈ l1, (env.searcher i).isOk = false)
    (hsucc : env.searcher k = SearchOutcome.ok r) :
    searchAttempts env st topic (l1 ++ k :: l2) =
      (some r, add_search_results_to_cache st topic r,
        (l1 ++ [k]).map CallEvent.search) := by
  induction l1 with
  | nil => simp [searchAttempts, hsucc]
  | cons a rest ih =>
    have ha : (env.searcher a).isOk = false := hfail a (by simp)
    have hrest : ∀ i ∈ rest, (env.searcher i).isOk = false :=
      fun i hi => hfail i (by simp [hi])
    cases h : env.searcher a
    · simp [searchAttempts, h, ih hrest]
    · simp [searchAttempts, h, ih hrest]
    · rw [h] at ha
      simp [SearchOutcome.isOk] at ha

/-- `get_search_results` records only search events. -/
theorem get_search_results_trace (env : Env) (st : SessionState)
    (topic : String) (usc : Bool) (n : Nat) :
    ∀ e ∈ (get_search_results env st topic usc n).2.2,
      ∃ m, e = CallEvent.search m := by
  unfold get_search_results
  cases usc
  · simp
    exact searchAttempts_trace_search env st topic (List.range n)
  · cases hc : get_cached_search_results st topic
    · simp [hc]
      exact searchAttempts_trace_search env st topic (List.range n)
    · simp [hc]

/-- `get_search_results` never touches the post or scraped-article cache
partitions. -/
theorem get_search_results_other_fields (env : Env) (st : SessionState)
    (topic : String) (usc : Bool) (n : Nat) :
    (get_search_results env st topic usc n).2.1.blog_posts = st.blog_posts ∧
    (get_search_results env st topic usc n).2.1.scraped_articles
      = st.scraped_articles := by
  unfold get_search_results
  cases usc
  · simp
    exact searchAttempts_other_fields env st topic (List.range n)
  · cases hc : get_cached_search_results st topic
    · simp [hc]
      exact searchAttempts_other_fields env st topic (List.range n)
    · simp [hc]

/-! ### Scrape-stage lemmas -/

/-- A valid scraped-cache hit can only be the empty dict: any non-empty
stored dict fails revalidation and raises instead. -/
theorem get_cached_scraped_articles_hit_empty (st : SessionState)
    (topic : String) (d : ScrapedDict)
    (h : get_cached_scraped_articles st topic = Except.ok (some d)) :
    d = [] := by
  unfold get_cached_scraped_articles at h
  cases hl : assocLookup st.scraped_articles topic with
  | none => rw [hl] at h; simp at h
  | some d' =>
    rw [hl] at h
    by_cases he : d'.isEmpty
    · simp [he] at h
      rw [← h]
      exact List.isEmpty_iff.mp he
    · simp [he] at h

/-- If no candidate's scrape raises, the loop completes normally, and a
url `u` that is never the reported url of a successful scrape and is
absent from the starting dict is absent from the final dict. -/
theorem scrapeLoop_ok_of_noraise (env : Env) (u : String) :
    ∀ (articles : List SourceCandidate) (acc : ScrapedDict),
    (∀ c ∈ articles, env.scraper c.url ≠ ScrapeOutcome.raise) →
    (∀ c ∈ articles, ∀ a, env.scraper c.url = ScrapeOutcome.ok a → a.url ≠ u) →
    assocLookup acc u = none →
    ∃ d, (scrapeLoop env articles acc).1 = Except.ok d ∧
      assocLookup d u = none := by
  intro articles
  induction articles with
  | nil => intro acc _ _ hacc; exact ⟨acc, rfl, hacc⟩
  | cons c rest ih =>
    intro acc hnr hno hacc
    have hnr' : ∀ c' ∈ rest, env.scraper c'.url ≠ ScrapeOutcome.raise :=
      fun c' hc' => hnr c' (by simp [hc'])
    have hno' : ∀ c' ∈ rest, ∀ a,
        env.scraper c'.url = ScrapeOutcome.ok a → a.url ≠ u :=
      fun c' hc' => hno c' (by simp [hc'])
    by_cases hmem : (assocLookup acc c.url).isSome
    · simpa [scrapeLoop, hmem] using ih acc hnr' hno' hacc
    · cases hs : env.scraper c.url with
      | raise => exact absurd hs (hnr c (by simp))
      | invalid =>
        rcases ih acc hnr' hno' hacc with ⟨d, hd1, hd2⟩
        exact ⟨d, by simp [scrapeLoop, hmem, hs, hd1], hd2⟩
      | ok a =>
        have hau : a.url ≠ u := hno c (by simp) a hs
        have hacc' : assocLookup (assocInsert acc a.url a) u = none := by
          rw [assocLookup_insert]
          simp [hau, hacc]
        rcases ih (assocInsert acc a.url a) hnr' hno' hacc' with ⟨d, hd1, hd2⟩
        exact ⟨d, by simp [scrapeLoop, hmem, hs, hd1], hd2⟩

/-- If url `u` scrapes successfully and the response reports `u` itself,
the loop invokes the scraper for `u` at most once when `u` is not yet a
key, and never when it already is: a success is recorded under `u`, and
the in-dict check then skips every later candidate with that url. -/
theorem scrapeLoop_count (env : Env) (u : String) (a : ScrapedArticle)
    (hu : env.scraper u = ScrapeOutcome.ok a) (ha : a.url = u) :
    ∀ (articles : List SourceCandidate) (acc : ScrapedDict),
    countScrape u (scrapeLoop env articles acc).2 ≤
      (if (assocLookup acc u).isSome then 0 else 1) := by
  intro articles
  induction articles with
  | nil => intro acc; simp [scrapeLoop, countScrape]
  | cons c rest ih =>
    intro acc
    by_cases hmem : (assocLookup acc c.url).isSome
    · simpa [scrapeLoop, hmem] using ih acc
    · by_cases hcu : c.url = u
      · subst hcu
        have h0 := ih (assocInsert acc a.url a)
        rw [assocLookup_insert] at h0
        simp [ha] at h0
        simp [scrapeLoop, hmem, hu, countScrape, ha, h0]
      · cases hs : env.scraper c.url with
        | raise => simp [scrapeLoop, hmem, hs, countScrape, hcu]
        | invalid =>
          have h0 := ih acc
          simpa [scrapeLoop, hmem, hs, countScrape, hcu] using h0
        | ok b =>
          have hb := ih (assocInsert acc b.url b)
          rw [assocLookup_insert] at hb
          by_cases hbu : b.url = u
          · simp [hbu] at hb
            simp [scrapeLoop, hmem, hs, countScrape, hcu, hbu, hb]
          · simp [hbu] at hb
            simpa [scrapeLoop, hmem, hs, countScrape, hcu] using hb

/-- Every entry the loop adds is stored under the reported url of its
article, so the key-equals-url invariant is preserved. -/
theorem scrapeLoop_key_eq_url (env : Env) :
    ∀ (articles : List SourceCandidate) (acc d : ScrapedDict),
    (∀ p ∈ acc, p.1 = p.2.url) →
    (scrapeLoop env articles acc).1 = Except.ok d →
    ∀ p ∈ d, p.1 = p.2.url := by
  intro articles
  induction articles with
  | nil =>
    intro acc d hacc hd
    simp [scrapeLoop] at hd
    rw [← hd]
    exact hacc
  | cons c rest ih =>
    intro acc d hacc hd
    by_cases hmem : (assocLookup acc c.url).isSome
    · exact ih acc d hacc (by simpa [scrapeLoop, hmem] using hd)
    · cases hs : env.scraper c.url with
      | raise => simp [scrapeLoop, hmem, hs] at hd
      | invalid =>
        exact ih acc d hacc (by simpa [scrapeLoop, hmem, hs] using hd)
      | ok a =>
        refine ih (assocInsert acc a.url a) d ?_
          (by simpa [scrapeLoop, hmem, hs] using hd)
        intro p hp
        rcases assocInsert_mem acc a.url a p hp with h | h
        · simp [h]
        · exact hacc p h

/-! ### Claim theorems -/

/-- C9: if every search attempt fails and `get_search_results` returns
null, the session state — in particular the (topic, "search") cache
entry — is exactly what it was before the call: failure is never
negatively cached. -/
theorem c9_search_failure_not_cached (env : Env) (st : SessionState)
    (topic : String) (use_search_cache : Bool) (numAttempts : Nat)
    (h : (get_search_results env st topic use_search_cache numAttempts).1 = none) :
    (get_search_results env st topic use_search_cache numAttempts).2.1 = st := by
  unfold get_search_results at h ⊢
  cases use_search_cache
  · simp at h ⊢
    exact searchAttempts_none_state env st topic _ h
  · simp at h ⊢
    cases hc : get_cached_search_results st topic
    · simp [hc] at h ⊢
      exact searchAttempts_none_state env st topic _ h
    · simp [hc] at h

/-- C9 witness: with a collaborator that raises on every attempt and an
empty starting state, the result is null and the state is unchanged. -/
theorem c9_witness :
    (get_search_results envFail stEmpty "t" true 3).2.1 = stEmpty :=
  c9_search_failure_not_cached envFail stEmpty "t" true 3 rfl

/-- C3: the cache round-trip is the identity for blog posts, for search
results and for the empty scraped set, but NOT for a non-empty scraped
set: `get_cached_scraped_articles` runs `ScrapedArticle.model_validate`
on the whole url-keyed dict stored by `add_scraped_articles_to_cache`,
which raises, so retrieving what was stored fails instead of returning
it. -/
theorem c3_roundtrip_fails_for_scraped :
    get_cached_blog_post (add_blog_post_to_cache stEmpty "t" "text") "t"
        = some "text" ∧
    get_cached_search_results
        (add_search_results_to_cache stEmpty "t" oneCand) "t" = some oneCand ∧
    get_cached_scraped_articles
        (add_scraped_articles_to_cache stEmpty "t" []) "t"
        = Except.ok (some []) ∧
    get_cached_scraped_articles
        (add_scraped_articles_to_cache stEmpty "t" [("u1", mkArt "u1")]) "t"
        = Except.error () :=
  ⟨rfl, rfl, rfl, rfl⟩

/-- C1: with a cached scraped set of size M = 1 and a candidate list of
size N = 2, `scrape_articles` with `use_scrape_cache = true` does NOT
return the cached set and does NOT short-circuit: the cache read raises
inside `get_cached_scraped_articles` (the whole dict is validated as a
single `ScrapedArticle`), the exception is swallowed as a cache miss, and
every candidate url is scraped afresh. -/
theorem c1_cache_hit_is_rescrapped :
    assocLookup stCachedScrape.scraped_articles "t" = some [("u1", mkArt "u1")] ∧
    (scrape_articles envAllOk stCachedScrape "t" twoCands true).trace
        = [CallEvent.scrape "u1", CallEvent.scrape "u2"] ∧
    (scrape_articles envAllOk stCachedScrape "t" twoCands true).result
        = Except.ok [("u1", mkArt "u1"), ("u2", mkArt "u2")] :=
  ⟨rfl, rfl, rfl⟩

/-- C4: with the retry loop reached (cache disabled or a cache miss),
`get_search_results` calls the search collaborator at most 3 times; if
every attempt before `k` fails and attempt `k < 3` returns a well-typed
result `r` — including one with zero candidates — the loop stops at
attempt `k`, persists `r` under (topic, "search") and returns it, having
made exactly the calls for attempts `0..k`. -/
theorem c4_search_retry_policy (env : Env) (st : SessionState)
    (topic : String) (use_search_cache : Bool) (k : Nat) (r : SearchResults)
    (hmiss : use_search_cache = false ∨ get_cached_search_results st topic = none)
    (hk : k < 3)
    (hfail : ∀ i, i < k → (env.searcher i).isOk = false)
    (hsucc : env.searcher k = SearchOutcome.ok r) :
    (∀ (env2 : Env) (st2 : SessionState) (usc2 : Bool),
        (get_search_results env2 st2 topic usc2 3).2.2.length ≤ 3) ∧
    get_search_results env st topic use_search_cache 3 =
      (some r, add_search_results_to_cache st topic r,
        (List.range (k + 1)).map CallEvent.search) := by
  constructor
  · intro env2 st2 usc2
    unfold get_search_results
    cases usc2
    · simpa using searchAttempts_trace_length env2 st2 topic (List.range 3)
    · cases hc : get_cached_search_results st2 topic
      · simpa [hc] using searchAttempts_trace_length env2 st2 topic (List.range 3)
      · simp [hc]
  · have hred : get_search_results env st topic use_search_cache 3 =
        searchAttempts env st topic (List.range 3) := by
      rcases hmiss with hm | hm
      · subst hm; rfl
      · unfold get_search_results
        cases use_search_cache <;> simp [hm]
    have hr3 : List.range 3 = [0, 1, 2] := by decide
    rw [hred, hr3]
    interval_cases k
    · have h := searchAttempts_first_success env st topic [] 0 [1, 2] r
        (by intro i hi; simp at hi) hsucc
      simpa using h
    · have h := searchAttempts_first_success env st topic [0] 1 [2] r
        (by intro i hi; simp at hi; subst hi; exact hfail 0 (by norm_num)) hsucc
      simpa [List.range_succ] using h
    · have h := searchAttempts_first_success env st topic [0, 1] 2 [] r
        (by intro i hi; simp at hi
            rcases hi with hi | hi <;> subst hi
            · exact hfail 0 (by norm_num)
            · exact hfail 1 (by norm_num)) hsucc
      simpa [List.range_succ] using h

/-- C4 witness: the first attempt raises, the second succeeds with zero
candidates; the loop stops after two calls and caches the empty result. -/
theorem c4_witness :
    (∀ (env2 : Env) (st2 : SessionState) (usc2 : Bool),
        (get_search_results env2 st2 "t" usc2 3).2.2.length ≤ 3) ∧
    get_search_results envSecondTry stEmpty "t" true 3 =
      (some ⟨[]⟩, add_search_results_to_cache stEmpty "t" ⟨[]⟩,
        (List.range 2).map CallEvent.search) :=
  c4_search_retry_policy envSecondTry stEmpty "t" true 1 ⟨[]⟩
    (Or.inr rfl) (by norm_num)
    (by intro i hi; interval_cases i; decide) rfl

/-- C5 (amended): with `use_cached_report = true` and a cached NON-EMPTY
post for the topic, `run` returns exactly the cached text, changes no
state and invokes no collaborator.  (A cached empty string fails the
Python truthiness test `if cached_blog_post:` and is treated as a miss —
see the counterexample.) -/
theorem c5_cached_report_short_circuit (env : Env) (st : SessionState)
    (topic : String) (usc uscr : Bool) (p : String)
    (hp : get_cached_blog_post st topic = some p) (hne : p ≠ "") :
    run env st topic usc uscr true =
      { output := Except.ok p, state := st, trace := [] } := by
  unfold run
  simp [hp, hne]

/-- C5 witness: a cached post "hello" is returned as is, with no
collaborator call and no state change. -/
theorem c5_witness :
    run envAllOk (stCachedPost "hello") "t" true true true =
      { output := Except.ok "hello", state := stCachedPost "hello",
        trace := [] } :=
  c5_cached_report_short_circuit envAllOk (stCachedPost "hello") "t" true true
    "hello" rfl (by decide)

/-- C5 counterexample: a cached post EXISTS for topic "t" (the empty
string), yet `run` with `use_cached_report = true` invokes the search
collaborator and returns the not-found message instead of the cached
text — the claim as stated fails at this input. -/
theorem c5_counterexample :
    get_cached_blog_post (stCachedPost "") "t" = some "" ∧
    (run envEmptySearch (stCachedPost "") "t" true true true).trace
        = [CallEvent.search 0] ∧
    (run envEmptySearch (stCachedPost "") "t" true true true).output
        = Except.ok (notFoundMessage "t") :=
  ⟨rfl, rfl, rfl⟩

/-- C6: when the cached-report check does not fire and search yields null
or an empty result set, `run` terminates with exactly
`"Sorry, could not find any articles on the topic: " ++ topic`, its trace
holds only search events (no scrape or write collaborator call), and the
post and scraped-article cache partitions are exactly as before the run —
the only possible cache write is the search stage's own entry. -/
theorem c6_empty_search_not_found (env : Env) (st : SessionState)
    (topic : String) (usc uscr ucr : Bool)
    (hpost : ucr = false ∨ get_cached_blog_post st topic = none ∨
        get_cached_blog_post st topic = some "")
    (hempty : (get_search_results env st topic usc 3).1 = none ∨
        ∃ r, (get_search_results env st topic usc 3).1 = some r ∧
          r.articles = []) :
    run env st topic usc uscr ucr =
      { output := Except.ok (notFoundMessage topic)
        state := (get_search_results env st topic usc 3).2.1
        trace := (get_search_results env st topic usc 3).2.2 } ∧
    (∀ e ∈ (run env st topic usc uscr ucr).trace,
        ∃ n, e = CallEvent.search n) ∧
    (run env st topic usc uscr ucr).state.blog_posts = st.blog_posts ∧
    (run env st topic usc uscr ucr).state.scraped_articles
      = st.scraped_articles := by
  have hrun : run env st topic usc uscr ucr =
      runAfterPostCache env st topic usc uscr := by
    rcases hpost with h | h | h
    · subst h; rfl
    · unfold run; cases ucr <;> simp [h]
    · unfold run; cases ucr <;> simp [h]
  have hnf : runAfterPostCache env st topic usc uscr =
      { output := Except.ok (notFoundMessage topic)
        state := (get_search_results env st topic usc 3).2.1
        trace := (get_search_results env st topic usc 3).2.2 } := by
    rcases hempty with h | ⟨r, hr, hrempty⟩
    · rcases hs : get_search_results env st topic usc 3 with ⟨res, st1, tr1⟩
      rw [hs] at h
      simp at h
      subst h
      simp [runAfterPostCache, hs]
    · rcases hs : get_search_results env st topic usc 3 with ⟨res, st1, tr1⟩
      rw [hs] at hr
      simp at hr
      subst hr
      simp [runAfterPostCache, hs, hrempty]
  refine ⟨hrun.trans hnf, ?_, ?_, ?_⟩
  · rw [hrun, hnf]
    exact get_search_results_trace env st topic usc 3
  · rw [hrun, hnf]
    exact (get_search_results_other_fields env st topic usc 3).1
  · rw [hrun, hnf]
    exact (get_search_results_other_fields env st topic usc 3).2

/-- C6 witness: topic "Empty Topic", search succeeds with zero candidates;
the output is exactly the fixed message and the trace holds one search
event and nothing else. -/
theorem c6_witness :
    (run envEmptySearch stEmpty "Empty Topic" true true true).output =
      Except.ok
        "Sorry, could not find any articles on the topic: Empty Topic" ∧
    (run envEmptySearch stEmpty "Empty Topic" true true true).state.blog_posts
      = stEmpty.blog_posts ∧
    (run envEmptySearch stEmpty "Empty Topic" true true true).state.scraped_articles
      = stEmpty.scraped_articles := by
  have h := c6_empty_search_not_found envEmptySearch stEmpty "Empty Topic"
    true true true (Or.inr (Or.inl rfl)) (Or.inr ⟨⟨[]⟩, rfl, rfl⟩)
  exact ⟨by rw [h.1]; rfl, h.2.2.1, h.2.2.2⟩

/-- C2 (amended): only NON-RAISING per-URL failures are swallowed.  If no
candidate's scrape raises, `scrape_articles` completes normally, and a url
whose scrape returns a wrong/missing response type — and which no other
candidate's successful response reports — is simply omitted from the
returned set.  (A raised collaborator error is not caught and aborts the
run — see the counterexample.) -/
theorem c2_scrape_invalid_swallowed (env : Env) (st : SessionState)
    (topic : String) (results : SearchResults) (uscr : Bool) (u : String)
    (hnoraise : ∀ c ∈ results.articles, env.scraper c.url ≠ ScrapeOutcome.raise)
    (_hu : env.scraper u = ScrapeOutcome.invalid)
    (hnores : ∀ c ∈ results.articles, ∀ a,
        env.scraper c.url = ScrapeOutcome.ok a → a.url ≠ u) :
    ∃ d, (scrape_articles env st topic results uscr).result = Except.ok d ∧
      assocLookup d u = none := by
  have hsf : ∃ d, (scrapeFresh env st topic results.articles).result
      = Except.ok d ∧ assocLookup d u = none := by
    rcases scrapeLoop_ok_of_noraise env u results.articles [] hnoraise hnores
      rfl with ⟨d, hd1, hd2⟩
    refine ⟨d, ?_, hd2⟩
    unfold scrapeFresh
    rcases hl : scrapeLoop env results.articles [] with ⟨res, tr⟩
    rw [hl] at hd1
    simp at hd1
    subst hd1
    rfl
  cases uscr
  · simpa [scrape_articles] using hsf
  · cases hc : get_cached_scraped_articles st topic with
    | error e => simpa [scrape_articles, hc] using hsf
    | ok o =>
      cases o with
      | none => simpa [scrape_articles, hc] using hsf
      | some d0 =>
        have hd0 : d0 = [] :=
          get_cached_scraped_articles_hit_empty st topic d0 hc
        subst hd0
        exact ⟨[], by simp [scrape_articles, hc], rfl⟩

/-- C2 witness: one candidate whose scrape returns a mistyped response;
the call completes with a set not containing that url. -/
theorem c2_witness :
    ∃ d, (scrape_articles envScrapeInvalid stEmpty "t" oneCand false).result
        = Except.ok d ∧ assocLookup d "u1" = none :=
  c2_scrape_invalid_swallowed envScrapeInvalid stEmpty "t" oneCand false "u1"
    (by intro c hc; simp [envScrapeInvalid])
    rfl
    (by intro c hc a h; simp [envScrapeInvalid] at h)

/-- C2 counterexample: the scrape collaborator raises for the first of two
candidate urls; `scrape_articles` propagates the exception — the result is
an error (the run aborts) and the second candidate is never attempted,
contradicting the claim that a failing URL is omitted and the remaining
candidates are processed. -/
theorem c2_counterexample :
    (scrape_articles envScrapeRaise stEmpty "t" twoCands false).result
        = Except.error () ∧
    (scrape_articles envScrapeRaise stEmpty "t" twoCands false).trace
        = [CallEvent.scrape "u1"] :=
  ⟨rfl, rfl⟩

/-- C7 (amended): a url `u` whose scrape succeeds with a response
reporting `u` itself is scraped at most once within one
`scrape_articles` call: the success is stored under key `u`, and every
later candidate with url `u` is skipped by the in-dict check.  (If the
scrape of `u` fails, or reports a different url, a later duplicate IS
scraped again — see the counterexample.) -/
theorem c7_scrape_url_at_most_once (env : Env) (st : SessionState)
    (topic : String) (results : SearchResults) (uscr : Bool) (u : String)
    (a : ScrapedArticle)
    (hu : env.scraper u = ScrapeOutcome.ok a) (ha : a.url = u) :
    countScrape u (scrape_articles env st topic results uscr).trace ≤ 1 := by
  have hloop := scrapeLoop_count env u a hu ha results.articles []
  simp [assocLookup] at hloop
  have hfr : countScrape u (scrapeFresh env st topic results.articles).trace
      ≤ 1 := by
    unfold scrapeFresh
    rcases hl : scrapeLoop env results.articles [] with ⟨res, tr⟩
    rw [hl] at hloop
    cases res <;> simpa using hloop
  cases uscr
  · simpa [scrape_articles] using hfr
  · cases hc : get_cached_scraped_articles st topic with
    | error e => simpa [scrape_articles, hc] using hfr
    | ok o =>
      cases o with
      | none => simpa [scrape_articles, hc] using hfr
      | some d0 => simp [scrape_articles, hc, countScrape]

/-- C7 witness: two candidates share url "u"; with a scraper that succeeds
and reports the requested url, the collaborator is invoked at most once
for "u". -/
theorem c7_witness :
    countScrape "u"
      (scrape_articles envAllOk stEmpty "t" dupCands false).trace ≤ 1 :=
  c7_scrape_url_at_most_once envAllOk stEmpty "t" dupCands false "u"
    (mkArt "u") rfl rfl

/-- C7 counterexample: two candidates share url "u" and the scrape of the
first occurrence returns a mistyped response, so nothing is stored under
"u"; the second occurrence is NOT skipped and the collaborator is invoked
twice for the same url — the claim as stated fails at this input. -/
theorem c7_counterexample :
    dupCands.articles = [mkCand "u", mkCand "u"] ∧
    (mkCand "u").url = "u" ∧
    (scrape_articles envScrapeInvalid stEmpty "t" dupCands false).trace
        = [CallEvent.scrape "u", CallEvent.scrape "u"] :=
  ⟨rfl, rfl, rfl⟩

/-- After the writer succeeds, `runAfterPostCache` stores the final text
under (topic, "post"). -/
theorem runAfterPostCache_write (env : Env) (st : SessionState)
    (topic : String) (usc uscr : Bool) (w : String)
    (hout : (runAfterPostCache env st topic usc uscr).output = Except.ok w)
    (hw : CallEvent.write ∈ (runAfterPostCache env st topic usc uscr).trace) :
    get_cached_blog_post (runAfterPostCache env st topic usc uscr).state topic
      = some w := by
  have htr := get_search_results_trace env st topic usc 3
  rcases hs : get_search_results env st topic usc 3 with ⟨res, st1, tr1⟩
  rw [hs] at htr
  simp at htr
  cases res with
  | none =>
    simp [runAfterPostCache, hs] at hw
    rcases htr CallEvent.write hw with ⟨n, hn⟩
    exact CallEvent.noConfusion hn
  | some r =>
    by_cases hre : r.articles.isEmpty
    · simp [runAfterPostCache, hs, hre] at hw
      rcases htr CallEvent.write hw with ⟨n, hn⟩
      exact CallEvent.noConfusion hn
    · rcases hsc : scrape_articles env st1 topic r uscr with ⟨scres, st2, tr2⟩
      cases scres with
      | error e => simp [runAfterPostCache, hs, hre, hsc] at hout
      | ok d =>
        cases hwr : env.writer topic (assocValues d) with
        | raise => simp [runAfterPostCache, hs, hre, hsc, hwr] at hout
        | ok w' =>
          simp [runAfterPostCache, hs, hre, hsc, hwr] at hout ⊢
          simp [get_cached_blog_post, add_blog_post_to_cache,
            assocLookup_insert, hout]

/-- C8: whenever a run performed the write stage and completed normally,
the final text it returned is persisted under (topic, "post") in the final
session state — unconditionally, for every value of `use_cached_report`
(the flag gates only the read side). -/
theorem c8_post_write_through (env : Env) (st : SessionState)
    (topic : String) (usc uscr ucr : Bool) (w : String)
    (hw : CallEvent.write ∈ (run env st topic usc uscr ucr).trace)
    (hout : (run env st topic usc uscr ucr).output = Except.ok w) :
    get_cached_blog_post (run env st topic usc uscr ucr).state topic
      = some w := by
  cases ucr
  · exact runAfterPostCache_write env st topic usc uscr w hout hw
  · cases hp : get_cached_blog_post st topic with
    | none =>
      have hred : run env st topic usc uscr true
          = runAfterPostCache env st topic usc uscr := by
        unfold run; simp [hp]
      rw [hred] at hw hout ⊢
      exact runAfterPostCache_write env st topic usc uscr w hout hw
    | some p =>
      by_cases hpe : p = ""
      · have hred : run env st topic usc uscr true
            = runAfterPostCache env st topic usc uscr := by
          unfold run; simp [hp, hpe]
        rw [hred] at hw hout ⊢
        exact runAfterPostCache_write env st topic usc uscr w hout hw
      · have hred : run env st topic usc uscr true
            = { output := Except.ok p, state := st, trace := [] } := by
          unfold run; simp [hp, hpe]
        rw [hred] at hw
        simp at hw

/-- C8 witness: a full successful run with `use_cached_report = false`
still persists the writer's text under (topic, "post"). -/
theorem c8_witness :
    get_cached_blog_post (run envAllOk stEmpty "t" true true false).state "t"
      = some "final post" :=
  c8_post_write_through envAllOk stEmpty "t" true true false "final post"
    (by decide) rfl

/-- C10: on a fresh build (cache disabled, or no usable cached set), every
entry of the set returned by `scrape_articles` is keyed by the url
reported in the scraper's response — the key equals the stored article's
`url` field — and exactly this set is persisted under (topic, "scrape"). -/
theorem c10_scraped_key_invariant (env : Env) (st : SessionState)
    (topic : String) (results : SearchResults) (uscr : Bool) (d : ScrapedDict)
    (hfresh : uscr = false ∨
        ∀ d0, get_cached_scraped_articles st topic ≠ Except.ok (some d0))
    (hok : (scrape_articles env st topic results uscr).result = Except.ok d) :
    (∀ p ∈ d, p.1 = p.2.url) ∧
    assocLookup
      (scrape_articles env st topic results uscr).state.scraped_articles
      topic = some d := by
  have hred : scrape_articles env st topic results uscr
      = scrapeFresh env st topic results.articles := by
    rcases hfresh with h | h
    · subst h; rfl
    · cases uscr
      · rfl
      · cases hc : get_cached_scraped_articles st topic with
        | error e => simp [scrape_articles, hc]
        | ok o =>
          cases o with
          | none => simp [scrape_articles, hc]
          | some d0 => exact absurd hc (h d0)
  rw [hred] at hok ⊢
  unfold scrapeFresh at hok ⊢
  rcases hl : scrapeLoop env results.articles [] with ⟨res, tr⟩
  rw [hl] at hok
  cases res with
  | error e => exact Except.noConfusion (hok : Except.error e = Except.ok d)
  | ok d' =>
    have hd : d' = d := Except.ok.inj (hok : Except.ok d' = Except.ok d)
    subst hd
    refine ⟨scrapeLoop_key_eq_url env results.articles [] d'
      (by intro p hp; simp at hp) (by rw [hl]), ?_⟩
    show assocLookup
      (add_scraped_articles_to_cache st topic d').scraped_articles topic
      = some d'
    simp [add_scraped_articles_to_cache, assocLookup_insert]

/-- C10 witness: a fresh scrape of one candidate stores the article under
its reported url and persists the one-entry set for the topic. -/
theorem c10_witness :
    (∀ p ∈ ([("u1", mkArt "u1")] : ScrapedDict), p.1 = p.2.url) ∧
    assocLookup
      (scrape_articles envAllOk stEmpty "t" oneCand false).state.scraped_articles
      "t" = some [("u1", mkArt "u1")] :=
  c10_scraped_key_invariant envAllOk stEmpty "t" oneCand false
    [("u1", mkArt "u1")] (Or.inl rfl) rfl

end Blogger
